import Mathlib

/-!
Shallow embedding of the cf-kv-crud repository (src/plugins/KV.ts and
src/router/route.ts): a controller over a Cloudflare KV namespace, and the
per-route entry guards of the router.

The backing KV namespace is modelled as an association list from keys to
entries; the platform primitives (`get`, `getWithMetadata`, `put`, `delete`,
`list`) are pure state transformers.  Controller operations mirror the
TypeScript methods of `KVController`, including the `try { ... } catch (error)
{ throw new Error(error) }` wrapping on every method: `new Error(e)`
stringifies a caught error object `e` into `"<name>: <message>"`, so each
catch layer prefixes the error's name to the surfaced message.  Every
operation returns its outcome together with the store state it leaves behind,
because a thrown error does not roll back puts and deletes already issued.
-/

namespace CfKvCrud

/-- A value handed to the store: `string | ArrayBuffer | ArrayBufferView |
ReadableStream` in the source, modelled as text or raw bytes. -/
inductive Value where
  | text (s : String)
  | bytes (bs : List Nat)
deriving DecidableEq, Repr

/-- The JS metadata record attached to an entry (`Record<string, any>`); the
only field the code ever reads is `valueType`, which may be absent
(`undefined`, modelled as `none`). -/
structure Meta where
  valueType : Option String := none
deriving DecidableEq, Repr

/-- The `KVNamespacePutOptions` record as used by the code: optional `expirationTtl`,
`expiration` and `metadata`. -/
structure PutOptions where
  expirationTtl : Option Nat := none
  expiration : Option Nat := none
  metadata : Option Meta := none
deriving DecidableEq, Repr

/-- Options object for `addItem` called without options, as `/api/add` does. -/
def noOptions : PutOptions := ⟨none, none, none⟩

/-- One stored entry of the namespace: the value plus the metadata and
expiration settings recorded by the `put` that wrote it. -/
structure Entry where
  value : Value
  metadata : Option Meta := none
  expirationTtl : Option Nat := none
  expiration : Option Nat := none
deriving DecidableEq, Repr

/-- The state of one KV namespace: keys bound to entries, no duplicate keys
arise from the primitives below (put replaces in place). -/
abbrev Store := List (String × Entry)

/-- Platform `kv.list()` reduced to its key names (the code only ever reads
`keys[i].name`). -/
def kvList (s : Store) : List String := s.map (fun p => p.1)

/-- Look up the entry bound to a key. -/
def kvLookup (s : Store) (k : String) : Option Entry :=
  match s with
  | [] => none
  | (k2, e) :: rest => if k2 == k then some e else kvLookup rest k

/-- Platform `kv.get(key)`: the stored value, or `null` when absent. -/
def kvGet (s : Store) (k : String) : Option Value :=
  (kvLookup s k).map (fun e => e.value)

/-- Platform `kv.getWithMetadata(key)`: `{ value, metadata }`, both `null`
when the key is absent. -/
def kvGetWithMetadata (s : Store) (k : String) : Option Value × Option Meta :=
  match kvLookup s k with
  | none => (none, none)
  | some e => (some e.value, e.metadata)

/-- Platform `kv.put(key, value, options)`: bind the key to the value with the
metadata and expiration settings of `options`, replacing any existing
binding. -/
def kvPut (s : Store) (k : String) (v : Value) (o : PutOptions) : Store :=
  match s with
  | [] => [(k, ⟨v, o.metadata, o.expirationTtl, o.expiration⟩)]
  | (k2, e) :: rest =>
    if k2 == k then (k, ⟨v, o.metadata, o.expirationTtl, o.expiration⟩) :: rest
    else (k2, e) :: kvPut rest k v o

/-- Platform `kv.delete(key)`: remove the binding of the key. -/
def kvDelete (s : Store) (k : String) : Store :=
  match s with
  | [] => []
  | (k2, e) :: rest => if k2 == k then kvDelete rest k else (k2, e) :: kvDelete rest k

/-- A JS `Error` (or `TypeError`) object: its `name` and `message`. -/
structure JsError where
  name : String
  message : String
deriving DecidableEq, Repr

/-- Stringification `String(e)` of an error object: `"<name>: <message>"`. -/
def JsError.toStr (e : JsError) : String := e.name ++ ": " ++ e.message

/-- Rewrapping `new Error(e)` applied to a caught error object `e`, as every catch block
of the controller does: the constructor stringifies its argument, so the new
error's message is `e.toStr`, not `e.message`. -/
def wrapError (e : JsError) : JsError := ⟨"Error", e.toStr⟩

/-- Construction `new Error("msg")` on a plain string. -/
def jsError (msg : String) : JsError := ⟨"Error", msg⟩

/-- The `TypeError` raised by `metadata!.valueType` in `getItem` when
`getWithMetadata` returned `metadata: null`. -/
def nullMetadataError : JsError :=
  ⟨"TypeError", "Cannot read properties of null (reading 'valueType')"⟩

/-- Controller `getKeys()`: list the namespace and map each key to its name. -/
def getKeys (s : Store) : List String := kvList s

/-- Controller `hasKey(key)`: fetch all keys via `getKeys` and test
membership — a read over the full listing, not a conditional write. -/
def hasKey (s : Store) (k : String) : Bool := (getKeys s).contains k

/-- Controller `addItem(key, value, options)`: throw if `hasKey`, else `put`
with `expirationTtl` and `expiration` defaulted to `60` and the metadata (if
any) taken from the caller's options.  The catch block rewraps the duplicate
key error.  On a throw the store is untouched. -/
def addItem (s : Store) (key : String) (value : Value) (options : PutOptions) :
    Except JsError Unit × Store :=
  if hasKey s key then
    (.error (wrapError (jsError ("Key " ++ key ++ " already exists"))), s)
  else
    (.ok (), kvPut s key value
      ⟨some (options.expirationTtl.getD 60), some (options.expiration.getD 60),
       options.metadata⟩)

/-- One element of the `addItems` input array. -/
structure AddItemInput where
  key : String
  value : Value
  options : PutOptions
deriving DecidableEq, Repr

/-- The `for await (const item of items)` loop of `addItems`: apply `addItem`
to each element in order, stopping at the first failure and keeping the state
reached so far. -/
def addItemsLoop (s : Store) : List AddItemInput → Except JsError Unit × Store
  | [] => (.ok (), s)
  | it :: rest =>
    match addItem s it.key it.value it.options with
    | (.error e, s2) => (.error e, s2)
    | (.ok _, s2) => addItemsLoop s2 rest

/-- Controller `addItems(items)`: throw `'No items to add'` on an empty array,
else run the sequential loop; the catch block rewraps whatever error escapes
(so an error from `addItem`, itself already wrapped once, is wrapped again). -/
def addItems (s : Store) (items : List AddItemInput) : Except JsError Unit × Store :=
  if items.length = 0 then
    (.error (wrapError (jsError "No items to add")), s)
  else
    match addItemsLoop s items with
    | (.error e, s2) => (.error (wrapError e), s2)
    | (.ok u, s2) => (.ok u, s2)

/-- Controller `updateItem(key, value, options)`: read the stored metadata
with `getWithMetadata`, then `put` the new value with
`{ ...options, metadata }` — the fetched metadata overrides any metadata in
the options, and no expiration default is applied. -/
def updateItem (s : Store) (key : String) (value : Value) (options : PutOptions) :
    Except JsError Unit × Store :=
  let md := (kvGetWithMetadata s key).2
  (.ok (), kvPut s key value ⟨options.expirationTtl, options.expiration, md⟩)

/-- The object `{ value, valueType }` returned by `getItem`. -/
structure GetResult where
  value : Option Value
  valueType : Option String
deriving DecidableEq, Repr

/-- Controller `getItem(key)`: read the value, then dereference
`metadata!.valueType`.  When the metadata is `null` (in particular for any
missing key) this raises a `TypeError`, which the catch block rewraps; it
never returns `null` — the successful result is always an object. -/
def getItem (s : Store) (key : String) : Except JsError GetResult × Store :=
  let v := kvGet s key
  match (kvGetWithMetadata s key).2 with
  | none => (.error (wrapError nullMetadataError), s)
  | some m => (.ok ⟨v, m.valueType⟩, s)

/-- Controller `deleteItem(key)`: delete the binding; the platform call does
not fail in this model, so the catch block is never reached. -/
def deleteItem (s : Store) (key : String) : Except JsError Unit × Store :=
  (.ok (), kvDelete s key)

/-- The `for await (const key of keys)` loop of `deleteItems`. -/
def deleteItemsLoop (s : Store) : List String → Except JsError Unit × Store
  | [] => (.ok (), s)
  | k :: ks =>
    match deleteItem s k with
    | (.error e, s2) => (.error e, s2)
    | (.ok _, s2) => deleteItemsLoop s2 ks

/-- Controller `deleteItems(keys)`: throw `'No keys to delete'` on an empty
array, else delete each key sequentially; the catch block rewraps errors. -/
def deleteItems (s : Store) (keys : List String) : Except JsError Unit × Store :=
  if keys.length = 0 then
    (.error (wrapError (jsError "No keys to delete")), s)
  else
    match deleteItemsLoop s keys with
    | (.error e, s2) => (.error (wrapError e), s2)
    | (.ok u, s2) => (.ok u, s2)

/-- Controller `clear()`: list all keys, then delete each listed key
(`Promise.all`, no ordering and no atomicity across the batch; deletes of
distinct keys commute, so the batch is modelled as a fold). -/
def clear (s : Store) : Except JsError Unit × Store :=
  (.ok (), (kvList s).foldl kvDelete s)

def VALUE_TYPE_TEXT : String := "TEXT"

def VALUE_TYPE_STREAM : String := "STREAM"

/-- The placeholder string `getAll` substitutes for non-text values. -/
def unsupportedViewMessage : String := "暂不支持查看，请下载后查看"

/-- One element of the `getAll` result. -/
structure AllItem where
  key : String
  value : Option Value
  valueType : String
deriving DecidableEq, Repr

/-- Controller `getAll()`: for each listed key read value and metadata;
`valueType` is `metadata?.valueType ?? 'TEXT'`, and non-text values are
replaced by a placeholder string. -/
def getAll (s : Store) : List AllItem :=
  (kvList s).map (fun k =>
    let vm := kvGetWithMetadata s k
    let vt := match vm.2 with
      | none => VALUE_TYPE_TEXT
      | some m => m.valueType.getD VALUE_TYPE_TEXT
    ⟨k, if vt == VALUE_TYPE_TEXT then vm.1 else some (.text unsupportedViewMessage), vt⟩)

/-!
Router guards (src/router/route.ts).  The `check`/`CheckEnter` helpers come
from `src/router/router.ts`, which is not part of the given sources; their
meaning is modelled from the spec: `check.method(m)` compares the request
method with `m`, `check.token()` is the bearer-token match, and the
`CheckEnter.reject…`/`acceptEnter` constructors produce the guard verdicts.
The guard bodies themselves are translated from route.ts.
-/

/-- Modelled from the spec: the per-request facts a guard inspects — HTTP
method, whether the bearer token matches (`check.token()`, implemented in the
missing router.ts), the `kv` store-selector header, and the `KV_KEYS`
environment value read by the `/api/getKvList` guard. -/
structure GuardInput where
  method : String
  tokenOk : Bool
  kvHeader : Option String
  kvKeysEnv : Option String
deriving DecidableEq, Repr

/-- Modelled from the spec: the verdicts produced by the `CheckEnter`
helper — accept, or one of the three rejections. -/
inductive GuardResult where
  | accept
  | rejectMethod
  | rejectToken
  | rejectNoKV
deriving DecidableEq, Repr

/-- JS truthiness of a nullable string (`headers.get` result or an env var):
falsy when `null` or the empty string. -/
def truthy : Option String → Bool
  | none => false
  | some s => !(s == "")

/-- Check `check.method(m)`. -/
def checkMethod (i : GuardInput) (m : String) : Bool := i.method == m

/-- Check `check.token()`. -/
def checkToken (i : GuardInput) : Bool := i.tokenOk

/-- The three-check cascade shared verbatim by the eight KV routes of
route.ts: method, then token, then the `kv` header, first-rejection-wins. -/
def standardGuard (m : String) (i : GuardInput) : GuardResult :=
  if !(checkMethod i m) then .rejectMethod
  else if !(checkToken i) then .rejectToken
  else if !(truthy i.kvHeader) then .rejectNoKV
  else .accept

/-- Guard `beforeEnter` of `/api/verifyToken`: a single method check, nothing
else. -/
def verifyTokenGuard (i : GuardInput) : GuardResult :=
  if !(checkMethod i "POST") then .rejectMethod else .accept

/-- Guard `beforeEnter` of `/api/getKvList`: method, token, then `check.env.KV_KEYS`
(an environment value, not the `kv` request header). -/
def getKvListGuard (i : GuardInput) : GuardResult :=
  if !(checkMethod i "GET") then .rejectMethod
  else if !(checkToken i) then .rejectToken
  else if !(truthy i.kvKeysEnv) then .rejectNoKV
  else .accept

/-- Guard `beforeEnter` of `/api/get`. -/
def apiGetGuard (i : GuardInput) : GuardResult :=
  if !(checkMethod i "GET") then .rejectMethod
  else if !(checkToken i) then .rejectToken
  else if !(truthy i.kvHeader) then .rejectNoKV
  else .accept

/-- Guard `beforeEnter` of `/api/update`. -/
def apiUpdateGuard (i : GuardInput) : GuardResult :=
  if !(checkMethod i "POST") then .rejectMethod
  else if !(checkToken i) then .rejectToken
  else if !(truthy i.kvHeader) then .rejectNoKV
  else .accept

/-- Guard `beforeEnter` of `/api/add`. -/
def apiAddGuard (i : GuardInput) : GuardResult :=
  if !(checkMethod i "POST") then .rejectMethod
  else if !(checkToken i) then .rejectToken
  else if !(truthy i.kvHeader) then .rejectNoKV
  else .accept

/-- Guard `beforeEnter` of `/api/delete`. -/
def apiDeleteGuard (i : GuardInput) : GuardResult :=
  if !(checkMethod i "POST") then .rejectMethod
  else if !(checkToken i) then .rejectToken
  else if !(truthy i.kvHeader) then .rejectNoKV
  else .accept

/-- Guard `beforeEnter` of `/api/getList`. -/
def getListGuard (i : GuardInput) : GuardResult :=
  if !(checkMethod i "GET") then .rejectMethod
  else if !(checkToken i) then .rejectToken
  else if !(truthy i.kvHeader) then .rejectNoKV
  else .accept

/-- Guard `beforeEnter` of `/api/getKvKeys`. -/
def getKvKeysGuard (i : GuardInput) : GuardResult :=
  if !(checkMethod i "GET") then .rejectMethod
  else if !(checkToken i) then .rejectToken
  else if !(truthy i.kvHeader) then .rejectNoKV
  else .accept

/-- Guard `beforeEnter` of `/api/upload`. -/
def uploadGuard (i : GuardInput) : GuardResult :=
  if !(checkMethod i "POST") then .rejectMethod
  else if !(checkToken i) then .rejectToken
  else if !(truthy i.kvHeader) then .rejectNoKV
  else .accept

/-- Guard `beforeEnter` of `/api/download`. -/
def downloadGuard (i : GuardInput) : GuardResult :=
  if !(checkMethod i "GET") then .rejectMethod
  else if !(checkToken i) then .rejectToken
  else if !(truthy i.kvHeader) then .rejectNoKV
  else .accept

/-- The static route table of route.ts, reduced to path ↦ guard; the root
route `/` has no `beforeEnter`. -/
def routeGuard : String → Option (GuardInput → GuardResult)
  | "/api/verifyToken" => some verifyTokenGuard
  | "/api/getKvList" => some getKvListGuard
  | "/api/get" => some apiGetGuard
  | "/api/update" => some apiUpdateGuard
  | "/api/add" => some apiAddGuard
  | "/api/delete" => some apiDeleteGuard
  | "/api/getList" => some getListGuard
  | "/api/getKvKeys" => some getKvKeysGuard
  | "/api/upload" => some uploadGuard
  | "/api/download" => some downloadGuard
  | _ => none

/-!
The `/api/get` and `/api/download` handlers, as far as the claims need them.
`ServiceResponse` lives in `src/service`, which is not part of the given
sources; its constructors are modelled from the spec's HTTP status mapping
(400/401/404/500, 200 on success).  Response bodies are reduced to the
message string.
-/

/-- Modelled from the spec: the `ServiceResponse` constructors used by the
handlers, carrying the HTTP status they map to. -/
inductive ApiResponse where
  | success
  | badRequest (msg : String)
  | notFound (msg : String)
  | serverError (msg : String)
deriving DecidableEq, Repr

/-- Modelled from the spec: the HTTP status of each `ServiceResponse`
constructor. -/
def statusOf : ApiResponse → Nat
  | .success => 200
  | .badRequest _ => 400
  | .notFound _ => 404
  | .serverError _ => 500

/-- JS `x === null` where `x` holds a non-null object — `getItem`'s
successful result is always the object literal `{ value, valueType }`, and an
object is never strictly equal to `null`. -/
def jsStrictEqNull (_ : GetResult) : Bool := false

/-- JS truthiness of an object value (`if (!fileContent)` in the download
handler): an object is always truthy. -/
def jsTruthyObject (_ : GetResult) : Bool := true

/-- The `/api/get` handler body (`excute`): reject a missing/empty `key`
query parameter with 400, call `getItem`, compare the result against `null`
for the 404 branch, else respond 200; a thrown error becomes a 500 with the
error's message. -/
def apiGetHandler (s : Store) (key : Option String) : ApiResponse :=
  if !(truthy key) then .badRequest "KEY Not Found"
  else
    match getItem s (key.getD "") with
    | (.error e, _) => .serverError e.message
    | (.ok r, _) => if jsStrictEqNull r then .notFound "Not Found" else .success

/-- The `/api/download` handler body (`excute`): reject a missing/empty
`file` query parameter with 400, call `getItem`, test the result for
falsiness for the 404 branch, else stream it with 200; a thrown error becomes
a 500. -/
def apiDownloadHandler (s : Store) (file : Option String) : ApiResponse :=
  if !(truthy file) then .badRequest "File name is required"
  else
    match getItem s (file.getD "") with
    | (.error e, _) => .serverError e.message
    | (.ok r, _) => if !(jsTruthyObject r) then .notFound "File not found" else .success

/-! Helper lemmas about the store primitives and loops. -/

theorem kvLookup_kvPut_self (s : Store) (k : String) (v : Value) (o : PutOptions) :
    kvLookup (kvPut s k v o) k = some ⟨v, o.metadata, o.expirationTtl, o.expiration⟩ := by
  induction s with
  | nil => simp [kvPut, kvLookup]
  | cons p rest ih =>
    obtain ⟨k2, e⟩ := p
    cases hk : k2 == k with
    | true => simp [kvPut, kvLookup, hk]
    | false => simp [kvPut, kvLookup, hk, ih]

theorem kvLookup_kvDelete_self (s : Store) (k : String) :
    kvLookup (kvDelete s k) k = none := by
  induction s with
  | nil => simp [kvDelete, kvLookup]
  | cons p rest ih =>
    obtain ⟨k2, e⟩ := p
    cases hk : k2 == k with
    | true => simpa [kvDelete, hk] using ih
    | false => simp [kvDelete, kvLookup, hk, ih]

theorem kvLookup_kvDelete_of_none (s : Store) (a k : String)
    (h : kvLookup s k = none) : kvLookup (kvDelete s a) k = none := by
  induction s with
  | nil => simp [kvDelete, kvLookup]
  | cons p rest ih =>
    obtain ⟨k2, e⟩ := p
    cases hk : k2 == k with
    | true => simp [kvLookup, hk] at h
    | false =>
      simp only [kvLookup, hk, if_false, Bool.false_eq_true] at h
      cases ha : k2 == a with
      | true => simp [kvDelete, ha, ih h]
      | false => simp [kvDelete, kvLookup, ha, hk, ih h]

theorem kvLookup_foldl_kvDelete_of_none (L : List String) (s : Store) (k : String)
    (h : kvLookup s k = none) : kvLookup (L.foldl kvDelete s) k = none := by
  induction L generalizing s with
  | nil => simpa using h
  | cons a L ih =>
    rw [List.foldl_cons]
    exact ih (kvDelete s a) (kvLookup_kvDelete_of_none s a k h)

theorem kvLookup_foldl_kvDelete_of_mem (L : List String) (s : Store) (k : String)
    (h : k ∈ L) : kvLookup (L.foldl kvDelete s) k = none := by
  induction L generalizing s with
  | nil => cases h
  | cons a L ih =>
    rw [List.foldl_cons]
    rcases List.mem_cons.mp h with rfl | hmem
    · exact kvLookup_foldl_kvDelete_of_none L (kvDelete s k) k (kvLookup_kvDelete_self s k)
    · exact ih (kvDelete s a) hmem

theorem addItem_error_state (s : Store) (k : String) (v : Value) (o : PutOptions)
    (e : JsError) (h : (addItem s k v o).1 = .error e) : (addItem s k v o).2 = s := by
  cases hk : hasKey s k with
  | true => simp [addItem, hk]
  | false => simp [addItem, hk] at h

theorem addItemsLoop_append (s s1 : Store) (pre xs : List AddItemInput)
    (h : addItemsLoop s pre = (.ok (), s1)) :
    addItemsLoop s (pre ++ xs) = addItemsLoop s1 xs := by
  induction pre generalizing s with
  | nil =>
    simp only [addItemsLoop, Prod.mk.injEq, true_and] at h
    rw [List.nil_append, h]
  | cons it pre ih =>
    rw [List.cons_append]
    simp only [addItemsLoop] at h ⊢
    cases haa : addItem s it.key it.value it.options with
    | mk r s2 =>
      rw [haa] at h
      cases r with
      | error e => simp at h
      | ok u => exact ih s2 h

theorem deleteItemsLoop_eq_foldl (s : Store) (ks : List String) :
    deleteItemsLoop s ks = (.ok (), ks.foldl kvDelete s) := by
  induction ks generalizing s with
  | nil => simp [deleteItemsLoop]
  | cons k ks ih => simp [deleteItemsLoop, deleteItem, ih]

/-! Claim theorems. -/

/-- C1: `addItem(k, v)` fails — with the error text `Key k already exists`,
resurfaced by the catch block as `Error: Key k already exists` — exactly when
`k` is among the store's listed keys, leaving the store untouched; it performs
the `put` only when `k` is absent; and the duplicate check `hasKey` is a read
of the full key listing followed by a membership test, not an atomic
conditional write. -/
theorem C1_addItem_duplicate_check (s : Store) (k : String) (v : Value) (o : PutOptions) :
    (hasKey s k = true →
      addItem s k v o =
        (.error (wrapError (jsError ("Key " ++ k ++ " already exists"))), s)) ∧
    (hasKey s k = false →
      addItem s k v o =
        (.ok (), kvPut s k v
          ⟨some (o.expirationTtl.getD 60), some (o.expiration.getD 60), o.metadata⟩)) ∧
    hasKey s k = (getKeys s).contains k := by
  refine ⟨fun h => ?_, fun h => ?_, rfl⟩
  · simp [addItem, h]
  · simp [addItem, h]

/-- Witness for C1 at a concrete one-entry store and at the empty store. -/
theorem C1_addItem_duplicate_check_witness :
    addItem [("k", ⟨.text "v", none, none, none⟩)] "k" (.text "w") noOptions =
      (.error (wrapError (jsError ("Key " ++ "k" ++ " already exists"))),
        [("k", ⟨.text "v", none, none, none⟩)]) ∧
    addItem [] "k" (.text "w") noOptions =
      (.ok (), kvPut [] "k" (.text "w")
        ⟨some (noOptions.expirationTtl.getD 60), some (noOptions.expiration.getD 60),
         noOptions.metadata⟩) :=
  ⟨(C1_addItem_duplicate_check [("k", ⟨.text "v", none, none, none⟩)] "k" (.text "w")
      noOptions).1 (by decide),
   (C1_addItem_duplicate_check [] "k" (.text "w") noOptions).2.1 (by decide)⟩

/-- C2 counterexample: on an empty store, `addItem` as called by `/api/add`
(no options) stores the entry with *no* metadata at all, and the later read
via `getItem` does not observe a valueType tag — it throws on the missing
metadata. -/
theorem C2_counterexample_add_then_get :
    (kvLookup (addItem [] "a" (.text "v") noOptions).2 "a").map Entry.metadata =
      some none ∧
    (getItem (addItem [] "a" (.text "v") noOptions).2 "a").1 =
      .error (wrapError nullMetadataError) :=
  ⟨rfl, rfl⟩

/-- C2 amended: the controller never synthesizes a valueType metadata tag on
its write paths — `addItem` stores exactly the metadata the caller passed
(`none` when called without options, as `/api/add` does), so after such an add
the entry carries no metadata and a later `getItem` of that key throws on the
missing metadata instead of observing a `'TEXT'`/`'STREAM'` tag, while
`getAll` substitutes the default tag `'TEXT'` for it. -/
theorem C2_amended_no_valueType_metadata (s : Store) (k : String) (v : Value)
    (o : PutOptions) (h : hasKey s k = false) :
    (kvLookup (addItem s k v o).2 k).map Entry.metadata = some o.metadata ∧
    (kvLookup (addItem s k v noOptions).2 k).map Entry.metadata = some none ∧
    (getItem (addItem s k v noOptions).2 k).1 = .error (wrapError nullMetadataError) := by
  refine ⟨?_, ?_, ?_⟩
  · simp [addItem, h, kvLookup_kvPut_self]
  · simp [addItem, h, kvLookup_kvPut_self, noOptions]
  · simp [addItem, h, getItem, kvGetWithMetadata, kvLookup_kvPut_self, noOptions]

/-- Witness for the amended C2 at a concrete store. -/
theorem C2_amended_no_valueType_metadata_witness :
    (kvLookup (addItem [("b", ⟨.text "x", none, none, none⟩)] "a" (.text "v")
        noOptions).2 "a").map Entry.metadata = some noOptions.metadata ∧
    (kvLookup (addItem [("b", ⟨.text "x", none, none, none⟩)] "a" (.text "v")
        noOptions).2 "a").map Entry.metadata = some none ∧
    (getItem (addItem [("b", ⟨.text "x", none, none, none⟩)] "a" (.text "v")
        noOptions).2 "a").1 = .error (wrapError nullMetadataError) :=
  C2_amended_no_valueType_metadata [("b", ⟨.text "x", none, none, none⟩)] "a"
    (.text "v") noOptions (by decide)

/-- C4: `clear` succeeds, and after it every key that was listed by
`kv.list()` has been deleted from the store. -/
theorem C4_clear_deletes_all_listed (s : Store) :
    (clear s).1 = .ok () ∧
    ∀ k : String, k ∈ getKeys s → kvLookup (clear s).2 k = none := by
  refine ⟨rfl, fun k hk => ?_⟩
  exact kvLookup_foldl_kvDelete_of_mem (kvList s) s k hk

/-- Witness for C4 at a concrete two-entry store. -/
theorem C4_clear_deletes_all_listed_witness :
    (clear [("a", ⟨.text "x", none, none, none⟩),
            ("b", ⟨.text "y", none, none, none⟩)]).1 = .ok () ∧
    kvLookup (clear [("a", ⟨.text "x", none, none, none⟩),
                     ("b", ⟨.text "y", none, none, none⟩)]).2 "b" = none :=
  ⟨(C4_clear_deletes_all_listed [("a", ⟨.text "x", none, none, none⟩),
      ("b", ⟨.text "y", none, none, none⟩)]).1,
   (C4_clear_deletes_all_listed [("a", ⟨.text "x", none, none, none⟩),
      ("b", ⟨.text "y", none, none, none⟩)]).2 "b" (by decide)⟩

/-- C6: `updateItem(k, v)` passes the stored metadata through — for a key `k`
bound to an entry `e`, the update succeeds, the value under `k` becomes `v`,
and the metadata under `k` is still `e.metadata`. -/
theorem C6_update_metadata_passthrough (s : Store) (k : String) (v : Value)
    (o : PutOptions) (e : Entry) (h : kvLookup s k = some e) :
    (updateItem s k v o).1 = .ok () ∧
    (kvLookup (updateItem s k v o).2 k).map Entry.value = some v ∧
    (kvLookup (updateItem s k v o).2 k).map Entry.metadata = some e.metadata := by
  refine ⟨rfl, ?_, ?_⟩
  · simp [updateItem, kvGetWithMetadata, h, kvLookup_kvPut_self]
  · simp [updateItem, kvGetWithMetadata, h, kvLookup_kvPut_self]

/-- Witness for C6 at a concrete store whose entry carries a metadata tag. -/
theorem C6_update_metadata_passthrough_witness :
    (updateItem [("k", ⟨.text "old", some ⟨some "TEXT"⟩, none, none⟩)] "k"
      (.text "new") noOptions).1 = .ok () ∧
    (kvLookup (updateItem [("k", ⟨.text "old", some ⟨some "TEXT"⟩, none, none⟩)] "k"
      (.text "new") noOptions).2 "k").map Entry.value = some (.text "new") ∧
    (kvLookup (updateItem [("k", ⟨.text "old", some ⟨some "TEXT"⟩, none, none⟩)] "k"
      (.text "new") noOptions).2 "k").map Entry.metadata =
        some (Entry.metadata ⟨.text "old", some ⟨some "TEXT"⟩, none, none⟩) :=
  C6_update_metadata_passthrough [("k", ⟨.text "old", some ⟨some "TEXT"⟩, none, none⟩)]
    "k" (.text "new") noOptions ⟨.text "old", some ⟨some "TEXT"⟩, none, none⟩ (by decide)

/-- C3 counterexample: the route `/api/verifyToken` *has* a guard, yet that
guard accepts a POST request whose bearer token does not match and whose `kv`
selector header is absent — refuting "for every route that has a guard … a bad
token is rejected regardless of the header". -/
theorem C3_counterexample_verifyToken_guard :
    routeGuard "/api/verifyToken" = some verifyTokenGuard ∧
    verifyTokenGuard ⟨"POST", false, none, none⟩ = .accept :=
  ⟨rfl, rfl⟩

/-- C3 amended: the eight KV-backed routes (`/api/get`, `/api/update`,
`/api/add`, `/api/delete`, `/api/getList`, `/api/getKvKeys`, `/api/upload`,
`/api/download`) share the three-check cascade — method match, then
bearer-token match, then presence of the `kv` selector header, short-circuited
first-rejection-wins; but `/api/verifyToken`'s guard checks only the method
(accepting any POST regardless of token or header), and `/api/getKvList`'s
third check is the `KV_KEYS` environment value, not the `kv` header. -/
theorem C3_amended_guard_structure :
    (apiGetGuard = standardGuard "GET" ∧ apiUpdateGuard = standardGuard "POST" ∧
     apiAddGuard = standardGuard "POST" ∧ apiDeleteGuard = standardGuard "POST" ∧
     getListGuard = standardGuard "GET" ∧ getKvKeysGuard = standardGuard "GET" ∧
     uploadGuard = standardGuard "POST" ∧ downloadGuard = standardGuard "GET") ∧
    (∀ (m : String) (i : GuardInput),
      (checkMethod i m = false → standardGuard m i = .rejectMethod) ∧
      (checkMethod i m = true → checkToken i = false →
        standardGuard m i = .rejectToken) ∧
      (checkMethod i m = true → checkToken i = true → truthy i.kvHeader = false →
        standardGuard m i = .rejectNoKV) ∧
      (checkMethod i m = true → checkToken i = true → truthy i.kvHeader = true →
        standardGuard m i = .accept)) ∧
    (∀ i : GuardInput, checkMethod i "POST" = true → verifyTokenGuard i = .accept) ∧
    (∀ i : GuardInput, checkMethod i "GET" = true → checkToken i = true →
      truthy i.kvKeysEnv = false → getKvListGuard i = .rejectNoKV) := by
  refine ⟨⟨rfl, rfl, rfl, rfl, rfl, rfl, rfl, rfl⟩, fun m i => ⟨?_, ?_, ?_, ?_⟩,
    fun i h => ?_, fun i h1 h2 h3 => ?_⟩
  · intro h; simp [standardGuard, h]
  · intro h1 h2; simp [standardGuard, h1, h2]
  · intro h1 h2 h3; simp [standardGuard, h1, h2, h3]
  · intro h1 h2 h3; simp [standardGuard, h1, h2, h3]
  · simp [verifyTokenGuard, h]
  · simp [getKvListGuard, h1, h2, h3]

/-- Witness for the amended C3: each cascade outcome at a concrete input,
the method-only guard of `/api/verifyToken`, and the env-based third check of
`/api/getKvList`. -/
theorem C3_amended_guard_structure_witness :
    standardGuard "GET" ⟨"POST", true, some "KV1", none⟩ = .rejectMethod ∧
    standardGuard "GET" ⟨"GET", false, some "KV1", none⟩ = .rejectToken ∧
    standardGuard "GET" ⟨"GET", true, none, none⟩ = .rejectNoKV ∧
    standardGuard "GET" ⟨"GET", true, some "KV1", none⟩ = .accept ∧
    verifyTokenGuard ⟨"POST", false, some "KV1", none⟩ = .accept ∧
    getKvListGuard ⟨"GET", true, some "KV1", none⟩ = .rejectNoKV :=
  ⟨(C3_amended_guard_structure.2.1 "GET" ⟨"POST", true, some "KV1", none⟩).1 (by decide),
   (C3_amended_guard_structure.2.1 "GET" ⟨"GET", false, some "KV1", none⟩).2.1
     (by decide) (by decide),
   (C3_amended_guard_structure.2.1 "GET" ⟨"GET", true, none, none⟩).2.2.1
     (by decide) (by decide) (by decide),
   (C3_amended_guard_structure.2.1 "GET" ⟨"GET", true, some "KV1", none⟩).2.2.2
     (by decide) (by decide) (by decide),
   C3_amended_guard_structure.2.2.1 ⟨"POST", false, some "KV1", none⟩ (by decide),
   C3_amended_guard_structure.2.2.2 ⟨"GET", true, some "KV1", none⟩
     (by decide) (by decide) (by decide)⟩

/-- C5 counterexample: in `addItems [dup, dup]` the underlying call `addItem`
fails with message `Error: Key k already exists`, but `addItems` re-throws
`new Error(error)` whose message is the *stringified* error
`Error: Error: Key k already exists` — the two messages are not equal. -/
theorem C5_counterexample_rethrow_message :
    (addItems [] [⟨"k", .text "v", noOptions⟩, ⟨"k", .text "v", noOptions⟩]).1 =
      .error ⟨"Error", "Error: Error: Key k already exists"⟩ ∧
    (addItem (addItemsLoop [] [⟨"k", .text "v", noOptions⟩]).2 "k" (.text "v")
        noOptions).1 = .error ⟨"Error", "Error: Key k already exists"⟩ ∧
    ("Error: Error: Key k already exists" ≠ "Error: Key k already exists") :=
  ⟨rfl, rfl, by decide⟩

/-- C5 amended: every failure escaping an operation's body is caught and
re-thrown as a generic `Error` whose message is the *string form*
`name ++ ": " ++ message` of the original error — the original message is
carried inside (as a suffix), but is not equal to the new message. -/
theorem C5_amended_rethrow_wraps (s s2 : Store) (items : List AddItemInput)
    (e : JsError) (hne : items ≠ []) (h : addItemsLoop s items = (.error e, s2)) :
    addItems s items = (.error (wrapError e), s2) ∧
    (wrapError e).message = e.name ++ ": " ++ e.message := by
  have hlen : ¬(items.length = 0) := by
    intro hh
    exact hne (List.length_eq_zero.mp hh)
  refine ⟨?_, rfl⟩
  unfold addItems
  rw [if_neg hlen, h]

/-- Witness for the amended C5: the duplicate-key batch on the empty store. -/
theorem C5_amended_rethrow_wraps_witness :
    addItems [] [⟨"k", .text "v", noOptions⟩, ⟨"k", .text "v", noOptions⟩] =
      (.error (wrapError ⟨"Error", "Error: Key k already exists"⟩),
        [("k", ⟨.text "v", none, some 60, some 60⟩)]) ∧
    (wrapError ⟨"Error", "Error: Key k already exists"⟩).message =
      "Error" ++ ": " ++ "Error: Key k already exists" :=
  C5_amended_rethrow_wraps [] [("k", ⟨.text "v", none, some 60, some 60⟩)]
    [⟨"k", .text "v", noOptions⟩, ⟨"k", .text "v", noOptions⟩]
    ⟨"Error", "Error: Key k already exists"⟩ (by decide) rfl

/-- C7: the multi-item operations are plain sequential loops with no
partial-failure rollback — if `addItem` on the element after a prefix `pre`
fails, the whole `addItems` call fails (with the rewrapped error) while the
resulting store is exactly the one the prefix produced; and `deleteItems` on a
nonempty key list succeeds and applies the deletes one by one, in input order,
as a left fold. -/
theorem C7_batch_sequential_no_rollback :
    (∀ (s s1 : Store) (pre rest : List AddItemInput) (it : AddItemInput) (e : JsError),
      addItemsLoop s pre = (.ok (), s1) →
      (addItem s1 it.key it.value it.options).1 = .error e →
      addItems s (pre ++ it :: rest) = (.error (wrapError e), s1)) ∧
    (∀ (s : Store) (keys : List String), keys ≠ [] →
      deleteItems s keys = (.ok (), keys.foldl kvDelete s)) := by
  constructor
  · intro s s1 pre rest it e hpre herr
    have hfull : addItem s1 it.key it.value it.options = (.error e, s1) := by
      have hst := addItem_error_state s1 it.key it.value it.options e herr
      exact Prod.ext herr hst
    have hlen : ¬((pre ++ it :: rest).length = 0) := by simp
    unfold addItems
    rw [if_neg hlen, addItemsLoop_append s s1 pre (it :: rest) hpre]
    show (match addItemsLoop s1 (it :: rest) with
      | (.error e, s2) => ((.error (wrapError e) : Except JsError Unit), s2)
      | (.ok u, s2) => (.ok u, s2)) = (.error (wrapError e), s1)
    have hloop : addItemsLoop s1 (it :: rest) = (.error e, s1) := by
      simp only [addItemsLoop, hfull]
    rw [hloop]
  · intro s keys hne
    have hlen : ¬(keys.length = 0) := by
      intro hh
      exact hne (List.length_eq_zero.mp hh)
    unfold deleteItems
    rw [if_neg hlen, deleteItemsLoop_eq_foldl]

/-- Witness for C7: a two-element add batch whose second element duplicates
the first, and a concrete nonempty delete batch. -/
theorem C7_batch_sequential_no_rollback_witness :
    addItems [] ([⟨"a", .text "v", noOptions⟩] ++ ⟨"a", .text "w", noOptions⟩ :: []) =
      (.error (wrapError ⟨"Error", "Error: Key a already exists"⟩),
        [("a", ⟨.text "v", none, some 60, some 60⟩)]) ∧
    deleteItems [("a", ⟨.text "v", none, none, none⟩)] ["a"] =
      (.ok (), (["a"] : List String).foldl kvDelete
        [("a", ⟨.text "v", none, none, none⟩)]) :=
  ⟨C7_batch_sequential_no_rollback.1 [] [("a", ⟨.text "v", none, some 60, some 60⟩)]
      [⟨"a", .text "v", noOptions⟩] [] ⟨"a", .text "w", noOptions⟩
      ⟨"Error", "Error: Key a already exists"⟩ rfl rfl,
   C7_batch_sequential_no_rollback.2 [("a", ⟨.text "v", none, none, none⟩)] ["a"]
     (by decide)⟩

/-- C8: `getItem` never returns `null` — for a missing key it throws the
(rewrapped) `TypeError` from dereferencing the `null` metadata, so the
`/api/get` and `/api/download` handlers answer 500 for a missing key, and
their 404 branches, which compare the returned object against `null` /
test it for falsiness, are unreachable: no input produces a 404. -/
theorem C8_getItem_missing_key_no_404 :
    (∀ (s : Store) (k : String), kvLookup s k = none →
      (getItem s k).1 = .error (wrapError nullMetadataError) ∧
      (k ≠ "" →
        apiGetHandler s (some k) = .serverError (wrapError nullMetadataError).message ∧
        apiDownloadHandler s (some k) =
          .serverError (wrapError nullMetadataError).message)) ∧
    (∀ (s : Store) (key : Option String),
      statusOf (apiGetHandler s key) ≠ 404 ∧
      statusOf (apiDownloadHandler s key) ≠ 404) := by
  constructor
  · intro s k h
    refine ⟨?_, fun hk => ⟨?_, ?_⟩⟩
    · simp [getItem, kvGetWithMetadata, h]
    · simp [apiGetHandler, truthy, hk, getItem, kvGetWithMetadata, h]
    · simp [apiDownloadHandler, truthy, hk, getItem, kvGetWithMetadata, h]
  · intro s key
    constructor
    · unfold apiGetHandler
      cases htr : truthy key with
      | false => simp [statusOf]
      | true =>
        simp only [htr, Bool.not_true, Bool.false_eq_true, if_false]
        cases hgi : getItem s (key.getD "") with
        | mk ex st =>
          cases ex with
          | error e => simp [statusOf]
          | ok r => simp [statusOf, jsStrictEqNull]
    · unfold apiDownloadHandler
      cases htr : truthy key with
      | false => simp [statusOf]
      | true =>
        simp only [htr, Bool.not_true, Bool.false_eq_true, if_false]
        cases hgi : getItem s (key.getD "") with
        | mk ex st =>
          cases ex with
          | error e => simp [statusOf]
          | ok r => simp [statusOf, jsTruthyObject]

/-- Witness for C8: the empty store and the key `"missing"`. -/
theorem C8_getItem_missing_key_no_404_witness :
    (getItem [] "missing").1 = .error (wrapError nullMetadataError) ∧
    apiGetHandler [] (some "missing") =
      .serverError (wrapError nullMetadataError).message ∧
    statusOf (apiGetHandler [] (some "missing")) ≠ 404 :=
  ⟨(C8_getItem_missing_key_no_404.1 [] "missing" rfl).1,
   ((C8_getItem_missing_key_no_404.1 [] "missing" rfl).2 (by decide)).1,
   (C8_getItem_missing_key_no_404.2 [] (some "missing")).1⟩

/-- C9: `addItem` called without expiration options (as `/api/add` calls it)
writes the entry with the defaults `expirationTtl = 60` and `expiration = 60`,
while `updateItem` without options applies no default — both expiration fields
of the updated entry stay unset. -/
theorem C9_addItem_default_expiration (s : Store) (k : String) (v : Value)
    (h : hasKey s k = false) :
    ((kvLookup (addItem s k v noOptions).2 k).map Entry.expirationTtl =
        some (some 60) ∧
     (kvLookup (addItem s k v noOptions).2 k).map Entry.expiration =
        some (some 60)) ∧
    ((kvLookup (updateItem s k v noOptions).2 k).map Entry.expirationTtl =
        some none ∧
     (kvLookup (updateItem s k v noOptions).2 k).map Entry.expiration =
        some none) := by
  refine ⟨⟨?_, ?_⟩, ?_, ?_⟩
  · simp [addItem, h, kvLookup_kvPut_self, noOptions]
  · simp [addItem, h, kvLookup_kvPut_self, noOptions]
  · simp [updateItem, kvLookup_kvPut_self, noOptions]
  · simp [updateItem, kvLookup_kvPut_self, noOptions]

/-- Witness for C9 at the empty store. -/
theorem C9_addItem_default_expiration_witness :
    ((kvLookup (addItem [] "k" (.text "v") noOptions).2 "k").map Entry.expirationTtl =
        some (some 60) ∧
     (kvLookup (addItem [] "k" (.text "v") noOptions).2 "k").map Entry.expiration =
        some (some 60)) ∧
    ((kvLookup (updateItem [] "k" (.text "v") noOptions).2 "k").map Entry.expirationTtl =
        some none ∧
     (kvLookup (updateItem [] "k" (.text "v") noOptions).2 "k").map Entry.expiration =
        some none) :=
  C9_addItem_default_expiration [] "k" (.text "v") (by decide)

/-- C10: on the empty input array `addItems` fails with the
`'No items to add'` error and `deleteItems` with `'No keys to delete'` (each
surfaced through the catch block's rewrap), and both leave the store
unchanged rather than succeeding as a no-op. -/
theorem C10_empty_batch_rejected (s : Store) :
    addItems s [] = (.error (wrapError (jsError "No items to add")), s) ∧
    deleteItems s [] = (.error (wrapError (jsError "No keys to delete")), s) :=
  ⟨rfl, rfl⟩

end CfKvCrud
